import Mathlib

/-!
# Verification of the VideoFramesToImages frame-extraction orchestrator

A shallow embedding of `src/main.py`: the `VideoFrameExtractor` class
(construction, input validation, metadata probe, frame extraction command),
the `find_video_files` folder scan, and the `main` entry point with its
single-file and batch branches.

External effects are modelled explicitly:
* the filesystem is a `World` (lists of existing regular-file paths and
  directory paths, with `/`-separated path strings already resolved to
  canonical absolute form, mirroring `Path(...).expanduser().resolve()`);
* outcomes of the external `ffmpeg` / `ffprobe` processes are supplied by an
  `Env` oracle (version-check results, the probe outcome per video path, the
  extraction-process outcome per command line, and the post-extraction
  directory listing per directory);
* Python exceptions are values of `PyErr`, and a Python function that can
  raise is embedded as `Except PyErr _`, with each `try/except` site
  catching exactly the exception classes its `except` clause names.

Numeric parsing: Python `float(...)` / `int(...)` are modelled over `ℚ` / `ℤ`
(idealised, exact rationals in place of IEEE-754 binary64), restricted to the
plain sign/digits/fraction literal grammar (no exponents, `inf`/`nan`, or
underscores).  Python `eval` on the frame-rate string — reached only when the
string contains `/` — is modelled on the grammar the probe actually emits:
`/`-separated chains of numeric literals evaluated by left-to-right true
division, a zero divisor raising `ZeroDivisionError` and any non-numeric part
raising a compile-time error (`SyntaxError`/`NameError`), both of which fall
outside the `except` clause of `_get_video_info`.
-/

namespace VFTI

/-! ## Executable string primitives

Python string operations are modelled by structurally recursive functions
over `List Char` so that every definition evaluates inside the kernel (the
separators the program splits on are all single characters). -/

/-- Splitting a character list at every occurrence of a separator, Python
`str.split(sep)`: the result always has one more part than there are
separator occurrences. -/
def splitOnChar (sep : Char) : List Char → List (List Char)
  | [] => [[]]
  | c :: cs =>
    let r := splitOnChar sep cs
    if c = sep then [] :: r
    else
      match r with
      | [] => [[c]]
      | h :: t => (c :: h) :: t

/-- Python `s.split(sep)` for a single-character separator. -/
def strSplit (s : String) (sep : Char) : List String :=
  (splitOnChar sep s.toList).map String.mk

/-- Python `str.strip()` (restricted to the four common whitespace
characters). -/
def pyStrip (s : String) : String :=
  String.mk (((s.toList.dropWhile Char.isWhitespace).reverse.dropWhile
    Char.isWhitespace).reverse)

/-- Whether the first list is an initial segment of the second. -/
def listStarts : List Char → List Char → Bool
  | [], _ => true
  | _ :: _, [] => false
  | a :: as, b :: bs => a = b && listStarts as bs

/-- Whether the first list is a final segment of the second. -/
def listEnds (pat s : List Char) : Bool := listStarts pat.reverse s.reverse

/-- Python `str.lower()` (ASCII case folding). -/
def lowerStr (s : String) : String := String.mk (s.toList.map Char.toLower)

/-! ## Path helpers (pathlib `name` / `suffix` / `stem`) -/

/-- The final path component, as Python `Path(p).name` on a resolved path. -/
def pyName (p : String) : String :=
  ((strSplit p '/').getLast?).getD ""

/-- Index of the last `'.'` in a character list (Python `str.rfind('.')`),
`none` when absent. -/
def rfindDot : List Char → Option Nat
  | [] => none
  | c :: cs =>
    match rfindDot cs with
    | some i => some (i + 1)
    | none => if c = '.' then some 0 else none

/-- Python `Path(p).suffix`: the extension of the final component, including
the dot; empty when the last dot is absent, leading, or final. -/
def pySuffix (p : String) : String :=
  let cs := (pyName p).toList
  match rfindDot cs with
  | some i => if 0 < i ∧ i < cs.length - 1 then String.mk (cs.drop i) else ""
  | none => ""

/-- Python `Path(p).stem`: the final component with `pySuffix` removed. -/
def pyStem (p : String) : String :=
  let cs := (pyName p).toList
  match rfindDot cs with
  | some i => if 0 < i ∧ i < cs.length - 1 then String.mk (cs.take i) else pyName p
  | none => pyName p

/-! ## Numeric literal parsing (Python `float` / `int`, idealised over ℚ/ℤ) -/

/-- Value of a digit string (most significant first). -/
def digitsToNat (cs : List Char) : Nat :=
  cs.foldl (fun a c => 10 * a + (c.toNat - 48)) 0

/-- Unsigned part of a Python float literal: `digits`, `digits.digits`,
`digits.` or `.digits`. -/
def parseUFrac (s : String) : Option ℚ :=
  match strSplit s '.' with
  | [a] =>
    if a ≠ "" ∧ a.toList.all Char.isDigit then some (digitsToNat a.toList) else none
  | [a, b] =>
    if (a ≠ "" ∨ b ≠ "") ∧ a.toList.all Char.isDigit ∧ b.toList.all Char.isDigit then
      some ((digitsToNat a.toList : ℚ) + (digitsToNat b.toList : ℚ) / (10 ^ b.length))
    else none
  | _ => none

/-- Python `float(s)` on plain decimal literals; `none` models `ValueError`. -/
def parsePyFloat (s : String) : Option ℚ :=
  match (pyStrip s).toList with
  | '-' :: rest => (parseUFrac (String.mk rest)).map Neg.neg
  | '+' :: rest => parseUFrac (String.mk rest)
  | rest => parseUFrac (String.mk rest)

/-- Digits of an unsigned Python int literal. -/
def parsePyIntCore (u : List Char) : Option ℤ :=
  if u ≠ [] ∧ u.all Char.isDigit then some (digitsToNat u : ℤ) else none

/-- Python `int(s)` on plain integer literals; `none` models `ValueError`. -/
def parsePyInt (s : String) : Option ℤ :=
  match (pyStrip s).toList with
  | '-' :: rest => (parsePyIntCore rest).map Neg.neg
  | '+' :: rest => parsePyIntCore rest
  | rest => parsePyIntCore rest

/-- Outcome of Python `eval` on the frame-rate string. -/
inductive EvalOut where
  | val (q : ℚ)
  /-- `ZeroDivisionError` raised during evaluation. -/
  | zeroDiv
  /-- compile-time `SyntaxError` / `NameError`: a part is not a numeric literal. -/
  | exn
deriving DecidableEq, Repr

/-- Python `eval(s)` for a string containing `/`: the expression is compiled
first (any non-numeric part fails compilation), then the `/`-chain is
evaluated by true division, raising `ZeroDivisionError` on a zero divisor. -/
def pyEvalDiv (s : String) : EvalOut :=
  match (strSplit s '/').mapM parsePyFloat with
  | none => .exn
  | some [] => .exn
  | some (v :: vs) => if vs.contains 0 then .zeroDiv else .val (vs.foldl (· / ·) v)

/-! ## Exceptions, probe outcomes, video metadata -/

/-- The Python exceptions the program can raise or catch. -/
inductive PyErr where
  | fileNotFound (msg : String)
  | valueError (msg : String)
  | runtimeError (msg : String)
  | zeroDivision
  /-- `SyntaxError`/`NameError` escaping from `eval`. -/
  | evalExn
deriving DecidableEq, Repr

/-- Metadata snapshot: `stream=duration,r_frame_rate,width,height`. -/
structure VideoInfo where
  duration : ℚ
  fps : ℚ
  width : ℤ
  height : ℤ
deriving DecidableEq, Repr

/-- The all-zero metadata returned on every caught probe failure. -/
def zeroInfo : VideoInfo := ⟨0, 0, 0, 0⟩

/-- Outcome of running the probing binary (`ffprobe`). -/
inductive ProbeOutcome where
  /-- the binary does not exist: `subprocess.run` raises `FileNotFoundError`. -/
  | binMissing
  /-- non-zero exit: `check=True` raises `CalledProcessError`. -/
  | nonzeroExit
  /-- zero exit with the given standard output text. -/
  | success (stdout : String)

/-- Parse the four metadata lines (`_get_video_info`, lines 119–131 of
`src/main.py`), in Python evaluation order.  A `ValueError` from
`float`/`int` is caught by the surrounding `except` and yields `zeroInfo`;
an error from `eval` on the ratio string is not caught and propagates. -/
def parseInfoLines (l0 l1 l2 l3 : String) : Except PyErr VideoInfo :=
  match if l0 = "" then some 0 else parsePyFloat l0 with
  | none => .ok zeroInfo
  | some d =>
    let withFps (f : ℚ) : Except PyErr VideoInfo :=
      match if l2 = "" then some 0 else parsePyInt l2 with
      | none => .ok zeroInfo
      | some w =>
        match if l3 = "" then some 0 else parsePyInt l3 with
        | none => .ok zeroInfo
        | some h => .ok ⟨d, f, w, h⟩
    if l1.toList.contains '/' then
      match pyEvalDiv l1 with
      | .exn => .error .evalExn
      | .zeroDiv => .error .zeroDivision
      | .val f => withFps f
    else
      match parsePyFloat l1 with
      | none => .ok zeroInfo
      | some f => withFps f

/-- Model of `VideoFrameExtractor._get_video_info`: on a successful probe, strip and
split the output into lines and parse the first four; on fewer than four
lines or a caught parse failure return `zeroInfo`; a `CalledProcessError`
(non-zero exit) is caught, but a `FileNotFoundError` from a missing probing
binary is not in the `except` clause and propagates, as do `eval` errors. -/
def getVideoInfo (p : ProbeOutcome) : Except PyErr VideoInfo :=
  match p with
  | .binMissing => .error (.fileNotFound "ffprobe: No such file or directory")
  | .nonzeroExit => .ok zeroInfo
  | .success out =>
    match strSplit (pyStrip out) '\n' with
    | l0 :: l1 :: l2 :: l3 :: _ => parseInfoLines l0 l1 l2 l3
    | _ => .ok zeroInfo

/-! ## Filesystem world and process environment -/

/-- The filesystem: resolved paths of existing regular files and existing
directories. -/
structure World where
  files : List String
  dirs : List String
deriving DecidableEq, Repr

/-- Python `Path(p).is_file()` against a `World`. -/
def pyIsFile (w : World) (p : String) : Bool := w.files.contains p

def pyIsDir (w : World) (p : String) : Bool := w.dirs.contains p

def pyExists (w : World) (p : String) : Bool := pyIsFile w p || pyIsDir w p

/-- Result of running `<binary> -version` (`subprocess.run` with
`check=True`). -/
inductive CheckResult where
  /-- the binary is absent: `FileNotFoundError`. -/
  | notFound
  /-- the binary exits non-zero: `CalledProcessError`. -/
  | exitErr
  | ok
deriving DecidableEq, Repr

/-- A completed extraction process (`ffmpeg`). -/
structure ExtractOutcome where
  returncode : ℤ
  stderr : String

/-- Outcome of `subprocess.Popen` + `communicate` on the extraction command;
`exn` is any exception, caught by the `except Exception` clause of
`extract_frames`. -/
inductive PopenResult where
  | ran (o : ExtractOutcome)
  | exn

/-- Oracle for everything outside the process: whether the bundled
`ffmpeg/bin` directory exists, the version-check outcomes of the bundled and
the system binaries, the probe outcome per video path, the extraction-process
outcome per command line, and the directory listing (entry names) per
directory path as observed after the extraction process finished. -/
structure Env where
  bundledDirExists : Bool
  bundledCheck : CheckResult
  systemCheck : CheckResult
  probe : String → ProbeOutcome
  popen : List String → PopenResult
  listing : String → List String

/-- The bundled binaries directory `<script_dir>/ffmpeg/bin` (the script
directory itself is abstracted away). -/
def bundledBinDir : String := "ffmpeg/bin"

/-- Model of `_setup_ffmpeg_paths`: the extraction binary used — the bundled
`ffmpeg.exe` when the bundled directory exists, otherwise the system
`ffmpeg` found through the search path. -/
def chosenBin (env : Env) : String :=
  if env.bundledDirExists then bundledBinDir ++ "/ffmpeg.exe" else "ffmpeg"

/-- The version-check outcome of whichever binary `_setup_ffmpeg_paths`
selected. -/
def chosenCheck (env : Env) : CheckResult :=
  if env.bundledDirExists then env.bundledCheck else env.systemCheck

/-! ## Extractor construction -/

/-- The state of a constructed `VideoFrameExtractor` (paths already
resolved). -/
structure Extractor where
  video_path : String
  output_dir : String
  frame_rate : String
  format : String
  ffmpeg_bin : String
deriving DecidableEq, Repr

/-- Python `frame_rate or "30"`: `None` and the empty string are falsy. -/
def pyOr (o : Option String) (d : String) : String :=
  match o with
  | none => d
  | some s => if s = "" then d else s

/-- Python `format.lower().lstrip(".")`: lower-case, then strip all leading dots. -/
def normFormat (f : String) : String :=
  String.mk ((f.toList.map Char.toLower).dropWhile (fun c => c = '.'))

/-- Model of `_validate_inputs`: the input must exist and be a regular file, and the
selected extraction binary must pass the `-version` check; the three failure
modes raise `FileNotFoundError`, `ValueError` and `RuntimeError`. -/
def validateInputs (env : Env) (w : World) (vp : String) : Except PyErr Unit :=
  if ¬ pyExists w vp then
    .error (.fileNotFound ("Video file not found: " ++ vp))
  else if ¬ pyIsFile w vp then
    .error (.valueError ("Input path is not a file: " ++ vp))
  else
    match chosenCheck env with
    | .notFound => .error (.runtimeError
        "FFmpeg is not installed or not in PATH. Please install FFmpeg or ensure ffmpeg folder exists.")
    | .exitErr => .error (.runtimeError "FFmpeg check failed.")
    | .ok => .ok ()

/-- Python `output_dir.mkdir(parents=True, exist_ok=True)`. -/
def createOutputDir (w : World) (d : String) : World :=
  { w with dirs := d :: w.dirs }

/-- The field assignments of `VideoFrameExtractor.__init__` (lines 38–43):
default rate, format normalisation, binary selection. -/
def initFields (env : Env) (vp od : String) (rate : Option String) (fmt : String) :
    Extractor :=
  { video_path := vp
    output_dir := od
    frame_rate := pyOr rate "30"
    format := normFormat fmt
    ffmpeg_bin := chosenBin env }

/-- Model of `VideoFrameExtractor.__init__`: assign fields, set up binary paths,
validate inputs, and only then create the output directory. -/
def initExtractor (env : Env) (w : World) (vp od : String) (rate : Option String)
    (fmt : String) : Except PyErr (Extractor × World) :=
  let ex := initFields env vp od rate fmt
  match validateInputs env w vp with
  | .error e => .error e
  | .ok _ => .ok (ex, createOutputDir w od)

/-! ## Frame extraction -/

/-- The pattern `str(self.output_dir / f"frame_%06d.{self.format}")`. -/
def outputPattern (ex : Extractor) : String :=
  ex.output_dir ++ "/" ++ ("frame_%06d." ++ ex.format)

/-- The `ffmpeg` command of `extract_frames` (lines 164–173). -/
def buildCmd (ex : Extractor) : List String :=
  [ex.ffmpeg_bin, "-i", ex.video_path, "-vf", "fps=" ++ ex.frame_rate,
   "-start_number", "0", outputPattern ex]

/-- Whether a file name matches the glob pattern `frame_*.<fmt>` used to
count extracted frames (for a format string without wildcard characters):
literal `frame_` head, literal `.<fmt>` tail, any middle. -/
def matchesFrameGlob (fmt name : String) : Bool :=
  listStarts "frame_".toList name.toList && listEnds ("." ++ fmt).toList name.toList &&
    Nat.ble (7 + fmt.length) name.length

/-- The count `len(list(self.output_dir.glob(f"frame_*.{self.format}")))`. -/
def countFrames (fmt : String) (entries : List String) : Nat :=
  (entries.filter (fun n => matchesFrameGlob fmt n)).length

/-- The `try` block of `extract_frames` around the extraction process
(lines 175–199): any exception from `Popen`/`communicate` is caught and
yields `False`; a non-zero exit yields `False`; on zero exit the frame
count is taken from the output-directory listing and the result is `True`. -/
def runExtraction (env : Env) (ex : Extractor) : Bool × Option Nat :=
  match env.popen (buildCmd ex) with
  | .exn => (false, none)
  | .ran o =>
    if o.returncode ≠ 0 then (false, none)
    else (true, some (countFrames ex.format (env.listing ex.output_dir)))

/-- Model of `VideoFrameExtractor.extract_frames`: first `_get_video_info` — outside
any `try`, so its exceptions propagate — then the extraction invocation.
Returns the success flag and the reported frame count (on success). -/
def extractFrames (env : Env) (ex : Extractor) : Except PyErr (Bool × Option Nat) :=
  match getVideoInfo (env.probe ex.video_path) with
  | .error e => .error e
  | .ok _ => .ok (runExtraction env ex)

/-! ## Folder scan -/

/-- Lexicographic comparison of character lists by code point, the order
Python `sorted` uses on strings (executable; related to the Mathlib `String`
order by `strLe_iff_le` below). -/
def strLexLe : List Char → List Char → Bool
  | [], _ => true
  | _ :: _, [] => false
  | a :: as, b :: bs =>
    if a < b then true
    else if b < a then false
    else strLexLe as bs

/-- Lexicographic string comparison, executable. -/
def strLe (a b : String) : Bool := strLexLe a.toList b.toList

/-- The fixed allow-list of video extensions of `find_video_files`. -/
def videoExtensions : List String :=
  [".mp4", ".mov", ".avi", ".mkv", ".webm", ".flv", ".wmv", ".m4v", ".mpg",
   ".mpeg", ".3gp", ".m2ts", ".mts", ".ts", ".vob", ".f4v", ".asf", ".rm",
   ".rmvb", ".ogv", ".mxf", ".gif"]

/-- Whether `p` lies (strictly) under directory `folder`, as produced by
`folder.rglob("*")` on resolved paths. -/
def underDir (folder p : String) : Bool := listStarts (folder ++ "/").toList p.toList

/-- Model of `find_video_files`: recursively enumerate entries under the
folder (`rglob("*")` yields files and directories), keep regular files whose
lower-cased suffix is in the allow-list, and return them sorted (Python
`sorted` on paths, modelled as insertion sort by the lexicographic string
order). -/
def find_video_files (w : World) (folder : String) : List String :=
  List.insertionSort (fun a b => strLe a b = true)
    ((w.files ++ w.dirs).filter (fun p =>
      underDir folder p && pyIsFile w p && videoExtensions.contains (lowerStr (pySuffix p))))

/-! ## Batch driver and entry point -/

/-- Batch mode: the per-video output subdirectory, `output_base / video_name`
with `video_name = video_file.stem` (lines 313–314). -/
def videoOutputDir (outputBase f : String) : String :=
  outputBase ++ "/" ++ pyStem f

/-- Whether an exception class is named by the `except (FileNotFoundError,
ValueError, RuntimeError)` clauses of `main`. -/
def caughtByMain : PyErr → Bool
  | .fileNotFound _ => true
  | .valueError _ => true
  | .runtimeError _ => true
  | .zeroDivision => false
  | .evalExn => false

/-- One iteration of the batch loop (lines 308–331): construct the extractor
for the per-video output directory and run extraction; a caught exception or
a `False` result marks the item failed; an uncaught exception propagates.
Returns the success flag of the item and the updated world. -/
def itemStep (env : Env) (outputBase : String) (rate : Option String) (fmt : String)
    (w : World) (f : String) : Except PyErr (Bool × World) :=
  match initExtractor env w f (videoOutputDir outputBase f) rate fmt with
  | .error e => if caughtByMain e then .ok (false, w) else .error e
  | .ok (ex, w') =>
    match extractFrames env ex with
    | .ok (b, _) => .ok (b, w')
    | .error e => if caughtByMain e then .ok (false, w') else .error e

/-- The batch `for` loop: process each file in order, appending the `name` of
each failed file to `failed_videos`; an uncaught exception aborts the loop. -/
def batchLoop (env : Env) (outputBase : String) (rate : Option String) (fmt : String) :
    List String → World → List String → Except PyErr (List String × World)
  | [], w, failed => .ok (failed, w)
  | f :: fs, w, failed =>
    match itemStep env outputBase rate fmt w f with
    | .error e => .error e
    | .ok (true, w') => batchLoop env outputBase rate fmt fs w' failed
    | .ok (false, w') => batchLoop env outputBase rate fmt fs w' (failed ++ [pyName f])

/-- The exit status `sys.exit(0 if not failed_videos else 1)` (line 343). -/
def batchExit (failed : List String) : ℤ :=
  if failed = [] then 0 else 1

/-- The observable outcome of a run of `main`: process exit status, final
filesystem world, and the top-level error printed, if any. -/
structure RunResult where
  exitCode : ℤ
  world : World
  err : Option PyErr
deriving Repr

/-- Model of `main` (lines 290–366): resolve the input; in folder mode enumerate the
videos (exit 1 if none) and run the batch loop, exiting by `batchExit`; in
single-file mode construct the extractor and extract, exiting 0 on success
and 1 otherwise; a nonexistent input raises `FileNotFoundError`, caught by
the top-level handler, which prints the error and exits 1.  An exception
escaping the batch loop also ends the process with status 1 (either via the
top-level handler or as an uncaught traceback). -/
def mainRun (env : Env) (w : World) (input outputBase : String) (rate : Option String)
    (fmt : String) : RunResult :=
  if pyIsDir w input then
    let files := find_video_files w input
    if files = [] then ⟨1, w, none⟩
    else
      match batchLoop env outputBase rate fmt files w [] with
      | .ok (failed, w') => ⟨batchExit failed, w', none⟩
      | .error e => ⟨1, w, some e⟩
  else if pyIsFile w input then
    match initExtractor env w input outputBase rate fmt with
    | .error e => ⟨1, w, some e⟩
    | .ok (ex, w') =>
      match extractFrames env ex with
      | .ok (b, _) => ⟨if b then 0 else 1, w', none⟩
      | .error e => ⟨1, w', some e⟩
  else
    ⟨1, w, some (.fileNotFound ("Input path not found: " ++ input))⟩

/-! ## Item classification (specification helpers for the batch loop)

The outcome of one batch iteration depends on the evolving world only
through its (constant) list of regular files, so the per-item outcome can be
classified as a function of that list alone; `itemStep_ok` below relates the
classification to `itemStep`. -/

/-- Whether processing file `f` raises an exception not caught by the batch
`except` clause (a missing probe binary, or an `eval` error on the
frame-rate string), as a function of the list of regular files. -/
def itemRaisesF (env : Env) (outputBase : String) (rate : Option String) (fmt : String)
    (files0 : List String) (f : String) : Bool :=
  if files0.contains f then
    match chosenCheck env with
    | .ok =>
      match extractFrames env (initFields env f (videoOutputDir outputBase f) rate fmt) with
      | .ok _ => false
      | .error e => !caughtByMain e
    | _ => false
  else false

/-- Whether file `f` is recorded as failed by the batch loop (meaningful
when `itemRaisesF` is `false`), as a function of the list of regular
files. -/
def itemFailedF (env : Env) (outputBase : String) (rate : Option String) (fmt : String)
    (files0 : List String) (f : String) : Bool :=
  if files0.contains f then
    match chosenCheck env with
    | .ok =>
      match extractFrames env (initFields env f (videoOutputDir outputBase f) rate fmt) with
      | .ok (b, _) => !b
      | .error _ => true
    | _ => true
  else true

/-! ## Concrete environments and worlds used in closed instances -/

/-- An environment with working binaries, a probe that exits non-zero, an
extraction process that exits zero, and empty output directories. -/
def env0 : Env :=
  { bundledDirExists := false
    bundledCheck := .ok
    systemCheck := .ok
    probe := fun _ => .nonzeroExit
    popen := fun _ => .ran ⟨0, ""⟩
    listing := fun _ => [] }

/-- An environment whose probing binary is missing. -/
def envProbeMissing : Env :=
  { env0 with probe := fun _ => .binMissing }

/-- An environment in which neither the bundled nor the system extraction
binary passes the version check. -/
def env7 : Env :=
  { env0 with bundledCheck := .notFound, systemCheck := .notFound }

/-- An environment whose output-directory listing holds two matching frames
and one unrelated file. -/
def env9 : Env :=
  { env0 with listing := fun _ => ["frame_000000.png", "frame_000001.png", "notes.txt"] }

/-- An environment in which the extraction process exits non-zero exactly
for the input file `d/b.mp4`. -/
def env3 : Env :=
  { env0 with popen := fun cmd => .ran ⟨if cmd.contains "d/b.mp4" then 1 else 0, ""⟩ }

/-- An empty filesystem. -/
def w4 : World := ⟨[], []⟩

/-- A filesystem with one regular file `v.mp4`. -/
def w7 : World := ⟨["v.mp4"], []⟩

/-- A filesystem with three videos in directory `d`. -/
def w3 : World := ⟨["d/a.mp4", "d/b.mp4", "d/c.mp4"], ["d"]⟩

/-- A concrete extractor for the probe-failure instances. -/
def exPng : Extractor := initFields envProbeMissing "v.mp4" "out" none "png"

/-- A concrete extractor for the frame-count instances. -/
def ex9 : Extractor := initFields env9 "v.mp4" "frames" none "png"

/-! ## The executable string order agrees with the Mathlib string order -/

theorem strLexLe_false_lt : ∀ as bs : List Char, strLexLe as bs = false → bs < as := by
  intro as
  induction as with
  | nil => intro bs h; simp [strLexLe] at h
  | cons a as ih =>
    intro bs h
    cases bs with
    | nil => exact List.Lex.nil
    | cons b bs =>
      simp only [strLexLe] at h
      split at h
      · simp at h
      · split at h
        · next h1 h2 => exact List.Lex.rel h2
        · next h1 h2 =>
          have hab : a = b := le_antisymm (not_lt.mp h2) (not_lt.mp h1)
          subst hab
          exact List.Lex.cons (ih bs h)

theorem strLexLe_true_not_lt : ∀ as bs : List Char, strLexLe as bs = true → ¬ bs < as := by
  intro as
  induction as with
  | nil => intro bs _ hlt; cases hlt
  | cons a as ih =>
    intro bs h hlt
    cases bs with
    | nil => simp [strLexLe] at h
    | cons b bs =>
      simp only [strLexLe] at h
      split at h
      · next h1 =>
        cases hlt with
        | rel hba => exact absurd h1 (lt_asymm hba)
        | cons hlt' => exact absurd h1 (lt_irrefl _)
      · split at h
        · simp at h
        · next h1 h2 =>
          cases hlt with
          | rel hba => exact h2 hba
          | cons hlt' => exact ih bs h hlt'

theorem strLe_iff_le (a b : String) : strLe a b = true ↔ a ≤ b := by
  constructor
  · intro h
    rw [String.le_iff_toList_le]
    exact not_lt.mp (strLexLe_true_not_lt a.toList b.toList h)
  · intro h
    cases hb : strLe a b with
    | true => rfl
    | false =>
      exfalso
      rw [String.le_iff_toList_le] at h
      exact h.not_lt (strLexLe_false_lt a.toList b.toList hb)

instance : IsTotal String (fun a b => strLe a b = true) :=
  ⟨fun a b => (le_total a b).imp (strLe_iff_le a b).mpr (strLe_iff_le b a).mpr⟩

instance : IsTrans String (fun a b => strLe a b = true) :=
  ⟨fun a b c hab hbc =>
    (strLe_iff_le a c).mpr (le_trans ((strLe_iff_le a b).mp hab) ((strLe_iff_le b c).mp hbc))⟩

/-! ## Claim C2: the extraction command line -/

/-- C2.  For every extraction request, the command passed to the extraction
binary consists of the binary, the input file path, the filter expression
`fps=<rate>`, a starting index of `0`, and the output filename pattern
`frame_%06d.<format>` inside the resolved output directory. -/
theorem C2_extraction_command (ex : Extractor) :
    buildCmd ex = [ex.ffmpeg_bin, "-i", ex.video_path, "-vf", "fps=" ++ ex.frame_rate,
      "-start_number", "0", outputPattern ex] ∧
    outputPattern ex = ex.output_dir ++ "/" ++ "frame_%06d." ++ ex.format ∧
    ex.video_path ∈ buildCmd ex ∧
    ("fps=" ++ ex.frame_rate) ∈ buildCmd ex ∧
    "0" ∈ buildCmd ex ∧
    outputPattern ex ∈ buildCmd ex := by
  refine ⟨rfl, (String.append_assoc _ _ _).symm, ?_, ?_, ?_, ?_⟩ <;> simp [buildCmd]

/-! ## Claim C10: per-video output directories collide on equal stems -/

/-- C10.  In batch mode the per-video output directory is derived solely
from the stem of the video file name, so two enumerated files with equal
stems — even in different subdirectories — get identical output
directories. -/
theorem C10_output_dir_from_stem :
    (∀ outputBase f1 f2 : String, pyStem f1 = pyStem f2 →
      videoOutputDir outputBase f1 = videoOutputDir outputBase f2) ∧
    pyStem "scan/a/clip.mp4" = pyStem "scan/b/clip.mov" ∧
    videoOutputDir "out" "scan/a/clip.mp4" = videoOutputDir "out" "scan/b/clip.mov" := by
  refine ⟨fun outputBase f1 f2 h => by simp [videoOutputDir, h], by decide, by decide⟩

/-- Witness for C10 at a concrete collision. -/
theorem C10_witness :
    videoOutputDir "frames" "root/x/v.mp4" = videoOutputDir "frames" "root/y/v.mkv" :=
  C10_output_dir_from_stem.1 "frames" "root/x/v.mp4" "root/y/v.mkv" (by decide)

/-! ## Claim C8: rate and format defaults (corrected) -/

/-- C8 counterexample.  An empty rate string is not passed through
unchanged: Python `frame_rate or "30"` treats `""` as falsy, so the filter
becomes `fps=30`, not `fps=`. -/
theorem C8_counterexample :
    (initFields env0 "v.mp4" "out" (some "") "png").frame_rate = "30" ∧
    "fps=" ∉ buildCmd (initFields env0 "v.mp4" "out" (some "") "png") ∧
    "fps=30" ∈ buildCmd (initFields env0 "v.mp4" "out" (some "") "png") := by
  refine ⟨rfl, by decide, by decide⟩

/-- C8 amended.  An absent — or empty — rate option defaults to `"30"`; a
nonempty rate string is stored and passed through unchanged into the filter
expression of the command; the format option is lower-cased with leading
dots stripped and defaults to `"png"`. -/
theorem C8_defaults_amended :
    (∀ (env : Env) (vp od fmt : String),
      (initFields env vp od none fmt).frame_rate = "30") ∧
    (∀ (env : Env) (vp od fmt r : String), r ≠ "" →
      (initFields env vp od (some r) fmt).frame_rate = r) ∧
    (∀ (env : Env) (vp od : String) (rate : Option String) (fmt : String),
      (initFields env vp od rate fmt).format = normFormat fmt) ∧
    normFormat ".PNG" = "png" ∧ normFormat "JPG" = "jpg" ∧
    (∀ (env : Env) (vp od : String) (rate : Option String),
      (initFields env vp od rate "png").format = "png") ∧
    (∀ ex : Extractor, ("fps=" ++ ex.frame_rate) ∈ buildCmd ex) := by
  have hpng : normFormat "png" = "png" := by decide
  refine ⟨fun _ _ _ _ => rfl, fun env vp od fmt r h => ?_, fun _ _ _ _ _ => rfl,
    by decide, by decide, fun _ _ _ _ => hpng, fun ex => by simp [buildCmd]⟩
  simp [initFields, pyOr, h]

/-- Witness for the amended C8 at a nonempty rate expression. -/
theorem C8_witness :
    (initFields env0 "v.mp4" "out" (some "24/1.001") "png").frame_rate = "24/1.001" :=
  C8_defaults_amended.2.1 env0 "v.mp4" "out" "png" "24/1.001" (by decide)

/-! ## Claim C4: nonexistent input in single-file mode -/

/-- C4.  In single-file mode a nonexistent input makes the tool exit with
status 1 and an input-not-found error, leaving the world unchanged (no
output directory is created); and at the constructor level, validation
rejects a nonexistent input before the output directory is created. -/
theorem C4_missing_input (env : Env) (w : World) (input outputBase vp od : String)
    (rate : Option String) (fmt : String)
    (hf : pyIsFile w input = false) (hd : pyIsDir w input = false)
    (he : pyExists w vp = false) :
    mainRun env w input outputBase rate fmt =
      ⟨1, w, some (.fileNotFound ("Input path not found: " ++ input))⟩ ∧
    initExtractor env w vp od rate fmt =
      .error (.fileNotFound ("Video file not found: " ++ vp)) := by
  constructor
  · simp [mainRun, hf, hd]
  · simp [initExtractor, validateInputs, he]

/-- Witness for C4 on an empty filesystem. -/
theorem C4_witness :
    mainRun env0 w4 "missing.mp4" "out" none "png" =
      ⟨1, w4, some (.fileNotFound ("Input path not found: " ++ "missing.mp4"))⟩ ∧
    initExtractor env0 w4 "missing.mp4" "out" none "png" =
      .error (.fileNotFound ("Video file not found: " ++ "missing.mp4")) :=
  C4_missing_input env0 w4 "missing.mp4" "out" "missing.mp4" "out" none "png"
    (by decide) (by decide) (by decide)

/-! ## Claim C7: binary-unavailable error -/

/-- C7.  With a valid input file, when neither the bundled nor the system
extraction binary passes the `-version` check, construction fails with the
binary-unavailable error kind (`RuntimeError`). -/
theorem C7_binary_unavailable (env : Env) (w : World) (vp od : String)
    (rate : Option String) (fmt : String)
    (hb : env.bundledCheck ≠ .ok) (hs : env.systemCheck ≠ .ok)
    (hf : pyIsFile w vp = true) :
    ∃ m, initExtractor env w vp od rate fmt = .error (.runtimeError m) := by
  have hex : pyExists w vp = true := by simp [pyExists, hf]
  cases hbd : env.bundledDirExists with
  | false =>
    cases hc : env.systemCheck with
    | notFound =>
      exact ⟨"FFmpeg is not installed or not in PATH. Please install FFmpeg or ensure ffmpeg folder exists.",
        by simp [initExtractor, validateInputs, chosenCheck, hex, hf, hbd, hc]⟩
    | exitErr =>
      exact ⟨"FFmpeg check failed.",
        by simp [initExtractor, validateInputs, chosenCheck, hex, hf, hbd, hc]⟩
    | ok => exact absurd hc hs
  | true =>
    cases hc : env.bundledCheck with
    | notFound =>
      exact ⟨"FFmpeg is not installed or not in PATH. Please install FFmpeg or ensure ffmpeg folder exists.",
        by simp [initExtractor, validateInputs, chosenCheck, hex, hf, hbd, hc]⟩
    | exitErr =>
      exact ⟨"FFmpeg check failed.",
        by simp [initExtractor, validateInputs, chosenCheck, hex, hf, hbd, hc]⟩
    | ok => exact absurd hc hb

/-- Witness for C7 with both binaries missing. -/
theorem C7_witness :
    ∃ m, initExtractor env7 w7 "v.mp4" "frames" none "png" = .error (.runtimeError m) :=
  C7_binary_unavailable env7 w7 "v.mp4" "frames" none "png"
    (by decide) (by decide) (by decide)

/-! ## Claim C6: probe output parsing -/

/-- C6.  On a well-formed four-line probe output the metadata result returns
the parsed values unchanged: the duration as a float, the frame rate either
as a plain float or as the quotient of a ratio, and width and height as
integers. -/
theorem C6_probe_parse (s l0 l1 l2 l3 : String) (d f : ℚ) (wd ht : ℤ)
    (hsplit : strSplit (pyStrip s) '\n' = [l0, l1, l2, l3])
    (h0 : l0 ≠ "") (hd : parsePyFloat l0 = some d)
    (h1 : (l1.toList.contains '/' = false ∧ parsePyFloat l1 = some f) ∨
          (l1.toList.contains '/' = true ∧ pyEvalDiv l1 = .val f))
    (h2 : l2 ≠ "") (hw : parsePyInt l2 = some wd)
    (h3 : l3 ≠ "") (hh : parsePyInt l3 = some ht) :
    getVideoInfo (.success s) = .ok ⟨d, f, wd, ht⟩ := by
  simp only [getVideoInfo, hsplit]
  rcases h1 with ⟨hc, hf⟩ | ⟨hc, hf⟩
  · have hc' : '/' ∉ l1.data := by simpa using hc
    simp [parseInfoLines, h0, hd, hc', hf, h2, hw, h3, hh]
  · have hc' : '/' ∈ l1.data := by simpa using hc
    simp [parseInfoLines, h0, hd, hc', hf, h2, hw, h3, hh]

/-- Witness for C6 on a concrete NTSC-style probe output. -/
theorem C6_witness :
    getVideoInfo (.success "7\n30000/1001\n1920\n1080") =
      .ok ⟨7, (30000 : ℚ)/1001, 1920, 1080⟩ :=
  C6_probe_parse "7\n30000/1001\n1920\n1080" "7" "30000/1001" "1920" "1080"
    7 ((30000 : ℚ)/1001) 1920 1080
    (by decide) (by decide) rfl
    (Or.inr ⟨by decide, rfl⟩)
    (by decide) rfl (by decide) rfl

/-! ## Claim C1: probe failures and extraction (corrected) -/

/-- C1 counterexample.  When the probing binary is missing, its
`FileNotFoundError` is not in the `except` clause of `_get_video_info`; it
propagates out of `extract_frames` and the extraction invocation never
runs, contrary to the claim that probe failures never propagate. -/
theorem C1_counterexample :
    extractFrames envProbeMissing exPng =
      .error (.fileNotFound "ffprobe: No such file or directory") ∧
    extractFrames envProbeMissing exPng ≠ .ok (runExtraction envProbeMissing exPng) := by
  refine ⟨rfl, fun h => ?_⟩
  rw [show extractFrames envProbeMissing exPng =
    .error (.fileNotFound "ffprobe: No such file or directory") from rfl] at h
  exact Except.noConfusion h

/-- C1 amended.  Probe failures that the probe step catches — a non-zero
exit of the probing process, output with fewer than four lines, or a
numeric field failing float/int parsing — degrade to zeroed metadata, and
whenever the probe step does not raise, extraction still runs with its
outcome determined solely by the extraction invocation; but a missing
probing binary (and an error from evaluating a ratio frame-rate string)
raises an exception that propagates to the caller and aborts extraction. -/
theorem C1_probe_nonfatal_amended (env : Env) (ex : Extractor)
    (h : ∃ i, getVideoInfo (env.probe ex.video_path) = .ok i) :
    extractFrames env ex = .ok (runExtraction env ex) ∧
    getVideoInfo .nonzeroExit = .ok zeroInfo ∧
    (∀ s, (strSplit (pyStrip s) '\n').length < 4 →
      getVideoInfo (.success s) = .ok zeroInfo) ∧
    getVideoInfo (.success "bad\n30\n1920\n1080") = .ok zeroInfo := by
  obtain ⟨i, hi⟩ := h
  refine ⟨by simp [extractFrames, hi], rfl, ?_, rfl⟩
  intro s hlen
  rcases hl : strSplit (pyStrip s) '\n' with _ | ⟨l0, _ | ⟨l1, _ | ⟨l2, _ | ⟨l3, rest⟩⟩⟩⟩ <;>
    simp only [getVideoInfo, hl]
  rw [hl] at hlen
  simp only [List.length_cons] at hlen
  omega

/-- Witness for the amended C1 with a probe that exits non-zero. -/
theorem C1_witness :
    extractFrames env0 (initFields env0 "v.mp4" "out" none "png") =
      .ok (runExtraction env0 (initFields env0 "v.mp4" "out" none "png")) :=
  (C1_probe_nonfatal_amended env0 (initFields env0 "v.mp4" "out" none "png")
    ⟨zeroInfo, rfl⟩).1

/-! ## Claim C9: reported frame count -/

/-- C9.  On a zero-exit extraction the reported frame count is the number
of directory entries matching the `frame_*.<format>` pattern in the listing
of the output directory; the count is only reported, and success is
determined solely by the exit status of the extraction process. -/
theorem C9_reported_count (env : Env) (ex : Extractor) (o : ExtractOutcome)
    (hprobe : ∃ i, getVideoInfo (env.probe ex.video_path) = .ok i)
    (hpopen : env.popen (buildCmd ex) = .ran o) :
    (o.returncode = 0 →
      extractFrames env ex = .ok (true, some
        ((env.listing ex.output_dir).filter
          (fun n => matchesFrameGlob ex.format n)).length)) ∧
    (o.returncode ≠ 0 → extractFrames env ex = .ok (false, none)) ∧
    matchesFrameGlob "png" "frame_000123.png" = true ∧
    matchesFrameGlob "png" "other.png" = false ∧
    matchesFrameGlob "png" "frame_000123.jpg" = false := by
  obtain ⟨i, hi⟩ := hprobe
  refine ⟨?_, ?_, by decide, by decide, by decide⟩
  · intro h0
    simp [extractFrames, hi, runExtraction, hpopen, h0, countFrames]
  · intro h0
    simp [extractFrames, hi, runExtraction, hpopen, h0]

/-- Witness for C9: two matching frames and one unrelated file in the
listing. -/
theorem C9_witness :
    extractFrames env9 ex9 = .ok (true, some
      ((env9.listing ex9.output_dir).filter
        (fun n => matchesFrameGlob ex9.format n)).length) :=
  (C9_reported_count env9 ex9 ⟨0, ""⟩ ⟨zeroInfo, rfl⟩ rfl).1 rfl

/-! ## Claim C5: folder enumeration -/

/-- C5.  Folder enumeration selects exactly the regular files under the
folder whose lower-cased extension is in the fixed allow-list, sorted
lexicographically; on a directory holding `.mp4`, `.mov`, `.txt` and `.jpg`
files only the `.mp4` and `.mov` files are selected, in path order. -/
theorem C5_folder_enumeration :
    (∀ (w : World) (folder p : String),
      p ∈ find_video_files w folder ↔
        p ∈ w.files ∧ underDir folder p = true ∧
          lowerStr (pySuffix p) ∈ videoExtensions) ∧
    (∀ (w : World) (folder : String),
      List.Sorted (· ≤ ·) (find_video_files w folder)) ∧
    find_video_files ⟨["d/b.mp4", "d/a.mov", "d/c.txt", "d/e.jpg"], ["d"]⟩ "d" =
      ["d/a.mov", "d/b.mp4"] := by
  refine ⟨?_, ?_, by decide⟩
  · intro w folder p
    simp only [find_video_files, List.mem_insertionSort, List.mem_filter,
      List.mem_append, Bool.and_eq_true, pyIsFile, List.contains, List.elem_iff]
    tauto
  · intro w folder
    exact (List.sorted_insertionSort _ _).imp fun h => (strLe_iff_le _ _).mp h

/-- Witness for C5: membership through the characterisation. -/
theorem C5_witness :
    "d/a.mov" ∈ find_video_files ⟨["d/b.mp4", "d/a.mov"], ["d"]⟩ "d" :=
  (C5_folder_enumeration.1 ⟨["d/b.mp4", "d/a.mov"], ["d"]⟩ "d" "d/a.mov").mpr
    ⟨by decide, by decide, by decide⟩

/-! ## Claim C3: batch-mode failure isolation -/

/-- One batch iteration matches its classification: when the item does not
raise an uncaught exception, `itemStep` returns the classified success flag
and a world with the same regular files. -/
theorem itemStep_ok (env : Env) (outputBase : String) (rate : Option String) (fmt : String)
    (w : World) (f : String)
    (h : itemRaisesF env outputBase rate fmt w.files f = false) :
    ∃ w', itemStep env outputBase rate fmt w f =
        .ok (!itemFailedF env outputBase rate fmt w.files f, w') ∧ w'.files = w.files := by
  cases hf : w.files.contains f with
  | false =>
    have hf' : f ∉ w.files := by simpa using hf
    have hfail : itemFailedF env outputBase rate fmt w.files f = true := by
      simp only [itemFailedF, hf]
      rfl
    refine ⟨w, ?_, rfl⟩
    rw [hfail]
    by_cases hd' : f ∈ w.dirs
    · simp [itemStep, initExtractor, validateInputs, pyExists, pyIsFile, pyIsDir,
        hf', hd', caughtByMain]
    · simp [itemStep, initExtractor, validateInputs, pyExists, pyIsFile, pyIsDir,
        hf', hd', caughtByMain]
  | true =>
    have hf' : f ∈ w.files := by simpa using hf
    cases hc : chosenCheck env with
    | notFound =>
      have hfail : itemFailedF env outputBase rate fmt w.files f = true := by
        simp only [itemFailedF, hf, hc]
        rfl
      refine ⟨w, ?_, rfl⟩
      rw [hfail]
      simp [itemStep, initExtractor, validateInputs, pyExists, pyIsFile, hf', hc,
        caughtByMain]
    | exitErr =>
      have hfail : itemFailedF env outputBase rate fmt w.files f = true := by
        simp only [itemFailedF, hf, hc]
        rfl
      refine ⟨w, ?_, rfl⟩
      rw [hfail]
      simp [itemStep, initExtractor, validateInputs, pyExists, pyIsFile, hf', hc,
        caughtByMain]
    | ok =>
      rcases he : extractFrames env (initFields env f (videoOutputDir outputBase f) rate fmt)
        with e | pr
      · have h' := h
        unfold itemRaisesF at h'
        rw [hf, hc, he] at h'
        simp at h'
        have hfail : itemFailedF env outputBase rate fmt w.files f = true := by
          simp only [itemFailedF, hf, hc, he]
          rfl
        refine ⟨createOutputDir w (videoOutputDir outputBase f), ?_, rfl⟩
        rw [hfail]
        simp [itemStep, initExtractor, validateInputs, pyExists, pyIsFile, hf', hc, he, h']
      · obtain ⟨b, cnt⟩ := pr
        have hfail : itemFailedF env outputBase rate fmt w.files f = !b := by
          simp only [itemFailedF, hf, hc, he]
          rfl
        refine ⟨createOutputDir w (videoOutputDir outputBase f), ?_, rfl⟩
        rw [hfail, Bool.not_not]
        simp [itemStep, initExtractor, validateInputs, pyExists, pyIsFile, hf', hc, he]

/-- The batch loop never stops early when no item raises: it returns the
accumulated failed names — one `pyName` per failing item, in order — and a
world with the same regular files. -/
theorem batchLoop_ok (env : Env) (outputBase : String) (rate : Option String)
    (fmt : String) (files : List String) :
    ∀ (w : World) (acc : List String),
      (∀ f ∈ files, itemRaisesF env outputBase rate fmt w.files f = false) →
      ∃ w', batchLoop env outputBase rate fmt files w acc =
          .ok (acc ++ (files.filter
            (itemFailedF env outputBase rate fmt w.files)).map pyName, w')
        ∧ w'.files = w.files := by
  induction files with
  | nil =>
    intro w acc _
    exact ⟨w, by simp [batchLoop], rfl⟩
  | cons f fs ih =>
    intro w acc h
    obtain ⟨w₁, hstep, hw₁⟩ :=
      itemStep_ok env outputBase rate fmt w f (h f (List.mem_cons_self f fs))
    have h' : ∀ g ∈ fs, itemRaisesF env outputBase rate fmt w₁.files g = false := by
      intro g hg
      rw [hw₁]
      exact h g (List.mem_cons_of_mem f hg)
    cases hfail : itemFailedF env outputBase rate fmt w.files f with
    | false =>
      rw [hfail] at hstep
      simp only [Bool.not_false] at hstep
      obtain ⟨w₂, hloop, hw₂⟩ := ih w₁ acc h'
      refine ⟨w₂, ?_, by rw [hw₂, hw₁]⟩
      simp only [batchLoop, hstep]
      rw [hloop, hw₁]
      simp [List.filter_cons, hfail]
    | true =>
      rw [hfail] at hstep
      simp only [Bool.not_true] at hstep
      obtain ⟨w₂, hloop, hw₂⟩ := ih w₁ (acc ++ [pyName f]) h'
      refine ⟨w₂, ?_, by rw [hw₂, hw₁]⟩
      simp only [batchLoop, hstep]
      rw [hloop, hw₁]
      simp [List.filter_cons, hfail]

/-- C3.  In batch mode, when every enumerated video is in a directory scan
and no item raises an uncaught exception, every file is processed — a
failing item is recorded under its file name and does not stop later items —
the run ends normally with exit status `batchExit` (0 when no item failed, 1
otherwise), and the summary counts add up: failed plus succeeded equals the
total number of files. -/
theorem C3_batch_isolation (env : Env) (w : World) (input outputBase : String)
    (rate : Option String) (fmt : String)
    (hdir : pyIsDir w input = true)
    (hne : find_video_files w input ≠ [])
    (hnr : ∀ f ∈ find_video_files w input,
      itemRaisesF env outputBase rate fmt w.files f = false) :
    ∃ w', mainRun env w input outputBase rate fmt =
        ⟨batchExit (((find_video_files w input).filter
            (itemFailedF env outputBase rate fmt w.files)).map pyName), w', none⟩ ∧
      (((find_video_files w input).filter
          (itemFailedF env outputBase rate fmt w.files)).map pyName).length +
        ((find_video_files w input).filter
          (fun f => !itemFailedF env outputBase rate fmt w.files f)).length =
        (find_video_files w input).length := by
  obtain ⟨w', hloop, _⟩ :=
    batchLoop_ok env outputBase rate fmt (find_video_files w input) w [] hnr
  refine ⟨w', ?_, ?_⟩
  · simp only [mainRun, hdir, if_true]
    rw [if_neg hne, hloop]
    simp
  · rw [List.length_map]
    exact (List.length_eq_length_filter_add _).symm

/-- Witness for C3: three videos, the second fails extraction; the summary
names exactly `b.mp4` and the process exits with status 1. -/
theorem C3_witness :
    ((find_video_files w3 "d").filter
        (itemFailedF env3 "frames" none "png" w3.files)).map pyName = ["b.mp4"] ∧
    ∃ w', mainRun env3 w3 "d" "frames" none "png" = ⟨1, w', none⟩ := by
  refine ⟨by decide, ?_⟩
  obtain ⟨w', h1, _⟩ := C3_batch_isolation env3 w3 "d" "frames" none "png"
    (by decide) (by decide) (by decide)
  have hx : batchExit (((find_video_files w3 "d").filter
      (itemFailedF env3 "frames" none "png" w3.files)).map pyName) = 1 := by decide
  exact ⟨w', by rw [h1, hx]⟩

end VFTI
